import Mathlib

/-!
Verification of the stock-news backend (`src/main.py`).

The program has two operations:
* `fetch_news` — checks the two Naver credentials, issues one upstream
  search request with the clamped display count, and projects each
  returned item to a summary shape;
* `fetch_article_content` — fetches an article page, extracts the title
  from the document's `<title>` element, extracts body text from the
  `#dic_area` container (falling back to the first thirty non-empty
  `<p>` texts anywhere in the document), and fails when both title and
  content come out empty.

HTML documents are modelled as trees of elements and text nodes; the
BeautifulSoup operations used by the code (`get_text(strip=True)`,
`find_all`, `select_one("#dic_area")`, `Tag.string`) are given direct
recursive definitions over that tree.
-/

namespace StockBackend

/-- An HTML node: either a text node or an element with a tag name, an
optional `id` attribute, and a list of children. A parsed document is
represented by a root element whose children are the top-level nodes. -/
inductive Node where
  | text (s : String) : Node
  | elem (tag : String) (id : Option String) (children : List Node) : Node
deriving Repr

/-- Python `str.strip()`: drop whitespace from both ends of the
string. -/
def pyStrip (s : String) : String :=
  String.mk (((s.data.dropWhile Char.isWhitespace).reverse.dropWhile
    Char.isWhitespace).reverse)

mutual

/-- The stripped non-empty descendant strings of a node, in document
order: the list BeautifulSoup's `get_text(strip=True)` concatenates. -/
def strippedStrings : Node → List String
  | .text s => if pyStrip s = "" then [] else [pyStrip s]
  | .elem _ _ cs => strippedStringsList cs
termination_by structural n => n

/-- `strippedStrings` over a list of sibling nodes, in order. -/
def strippedStringsList : List Node → List String
  | [] => []
  | c :: cs => strippedStrings c ++ strippedStringsList cs
termination_by structural l => l

end

/-- BeautifulSoup `node.get_text(strip=True)`: each descendant string
stripped, empties dropped, the rest concatenated in document order. -/
def getTextStrip (n : Node) : String :=
  String.join (strippedStrings n)

mutual

/-- All elements among a node and its descendants whose tag is in
`tags`, in document (pre-)order: the node itself first, then its
descendants. -/
def findAllFrom (tags : List String) : Node → List Node
  | .text _ => []
  | .elem t i cs =>
      (if tags.contains t then [Node.elem t i cs] else []) ++ findAllMany tags cs
termination_by structural n => n

/-- `findAllFrom` over a list of sibling nodes, in order. -/
def findAllMany (tags : List String) : List Node → List Node
  | [] => []
  | c :: cs => findAllFrom tags c ++ findAllMany tags cs
termination_by structural l => l

end

/-- BeautifulSoup `node.find_all(tags)`: matching strict descendants of
`n`, in document order. -/
def find_all (tags : List String) (n : Node) : List Node :=
  match n with
  | .text _ => []
  | .elem _ _ cs => findAllMany tags cs

mutual

/-- First node among a node and its descendants (document order) whose
`id` attribute equals `i`. -/
def selectIdFrom (i : String) : Node → Option Node
  | .text _ => none
  | .elem t id cs =>
      if id = some i then some (Node.elem t id cs) else selectIdMany i cs
termination_by structural n => n

/-- `selectIdFrom` over a list of sibling nodes, first hit wins. -/
def selectIdMany (i : String) : List Node → Option Node
  | [] => none
  | c :: cs =>
      match selectIdFrom i c with
      | some r => some r
      | none => selectIdMany i cs
termination_by structural l => l

end

/-- BeautifulSoup `soup.select_one("#" + i)`: the first descendant
element of the document with `id` attribute `i`, if any. -/
def select_one_id (i : String) (doc : Node) : Option Node :=
  match doc with
  | .text _ => none
  | .elem _ _ cs => selectIdMany i cs

/-- BeautifulSoup `Tag.string`: the node's single string, descending
through chains of single children; `none` when the node has zero or
several children. -/
def nodeString : Node → Option String
  | .text s => some s
  | .elem _ _ [c] => nodeString c
  | .elem _ _ (_ :: _ :: _) => none
  | .elem _ _ [] => none

/-- `soup.title`: the first `<title>` element of the document. -/
def soupTitle (doc : Node) : Option Node :=
  (find_all ["title"] doc).head?

/-- Line 100 of `main.py`:
`title = soup.title.string.strip() if soup.title and soup.title.string else ""`.
(A present but empty `.string` is falsy in Python, so it also yields `""`,
which coincides with stripping it.) -/
def extract_title (doc : Node) : String :=
  match soupTitle doc with
  | none => ""
  | some t =>
      match nodeString t with
      | none => ""
      | some s => if s = "" then "" else pyStrip s

/-- The module-level configuration read by `os.getenv` at startup:
`NAVER_CLIENT_ID` and `NAVER_CLIENT_SECRET`, each possibly absent. -/
structure Env where
  NAVER_CLIENT_ID : Option String
  NAVER_CLIENT_SECRET : Option String
deriving Repr, DecidableEq

/-- Python truthiness of an optional string: `not x` holds when `x` is
`None` or the empty string. -/
def pyFalsy : Option String → Bool
  | none => true
  | some s => s = ""

/-- A `fastapi.HTTPException(status_code, detail)`. -/
structure HTTPError where
  status_code : Nat
  detail : String
deriving Repr, DecidableEq

/-- An item of the upstream search response's `items` array, with the
four fields the adapter projects; a missing field is `none`. -/
structure UpstreamItem where
  title : Option String
  description : Option String
  link : Option String
  pubDate : Option String
deriving Repr, DecidableEq

/-- The Article summary shape built per item (lines 64-72 of
`main.py`); `none` renders as JSON null. -/
structure Article where
  title : Option String
  desc : Option String
  link : Option String
  pubDate : Option String
deriving Repr, DecidableEq

/-- The value `fetch_news` returns on success (lines 74-78). -/
structure SearchResult where
  keyword : String
  count : Nat
  articles : List Article
deriving Repr, DecidableEq

/-- The query parameters of the single upstream GET (lines 50-54):
`query`, `display`, `sort`. -/
structure UpstreamRequest where
  query : String
  display : Int
  sort : String
deriving Repr, DecidableEq

/-- The upstream search API's HTTP response: status code, raw body, and
the parsed JSON body's `items` array (`none` when the key is absent,
matching `data.get("items", [])`). -/
structure NetResponse where
  status_code : Nat
  text : String
  items : Option (List UpstreamItem)
deriving Repr, DecidableEq

/-- The outcome of one `fetch_news` run: the returned value or raised
`HTTPException`, together with the upstream requests issued during the
run, in order. -/
structure RunResult where
  result : Except HTTPError SearchResult
  requests : List UpstreamRequest
deriving Repr

/-- Lines 35-78 of `main.py`: credential check, clamped request
parameters, one upstream GET answered by the oracle `net`, status
check, projection of items. -/
def fetch_news (env : Env) (keyword : String) (limit : Int) (sort : String)
    (net : UpstreamRequest → NetResponse) : RunResult :=
  if pyFalsy env.NAVER_CLIENT_ID || pyFalsy env.NAVER_CLIENT_SECRET then
    ⟨.error ⟨500, "NAVER API key missing (.env 확인 필요)"⟩, []⟩
  else
    let params : UpstreamRequest := ⟨keyword, min limit 100, sort⟩
    let res := net params
    if res.status_code ≠ 200 then
      ⟨.error ⟨res.status_code, res.text⟩, [params]⟩
    else
      let articles := (res.items.getD []).map
        (fun item => Article.mk item.title item.description item.link item.pubDate)
      ⟨.ok ⟨keyword, articles.length, articles⟩, [params]⟩

/-- The response obtained when fetching an article page: status code,
raw body, and the `BeautifulSoup(res.text, "html.parser")` parse of
that body. -/
structure PageResponse where
  status_code : Nat
  text : String
  doc : Node
deriving Repr

/-- The value `fetch_article_content` returns on success
(lines 127-132). -/
structure ArticleDetail where
  url : String
  title : String
  content : String
  origin_link : String
deriving Repr, DecidableEq

/-- Lines 85-132 of `main.py`: status check, title extraction, primary
extraction from the `#dic_area` container, fallback over the first 30
non-empty `<p>` texts, and the final both-empty check. The page fetch
is answered by `res`; the function reads nothing else (in particular no
credentials from `env`). -/
def fetch_article_content (env : Env) (url : String) (res : PageResponse) :
    Except HTTPError ArticleDetail :=
  if res.status_code ≠ 200 then
    .error ⟨res.status_code, "기사 요청 실패: " ++ res.text⟩
  else
    let soup := res.doc
    let title := extract_title soup
    let content_text := ""
    let content_text :=
      match select_one_id "dic_area" soup with
      | some main_area =>
          let paragraphs :=
            ((find_all ["p", "span"] main_area).map getTextStrip).filter
              (fun s => s ≠ "")
          String.intercalate "\n" paragraphs
      | none => content_text
    let content_text :=
      if content_text = "" then
        let ps := find_all ["p"] soup
        let paragraphs := (ps.map getTextStrip).filter (fun s => s ≠ "")
        String.intercalate "\n" (paragraphs.take 30)
      else content_text
    if title = "" ∧ content_text = "" then
      .error ⟨500, "본문을 가져오지 못했습니다."⟩
    else
      .ok ⟨url, title, content_text, url⟩

/-- The text the primary strategy (lines 105-112) yields on a document:
the `#dic_area` container's non-empty stripped `p`/`span` texts joined
with newlines, or `""` when the container is absent. -/
def primary_text (doc : Node) : String :=
  match select_one_id "dic_area" doc with
  | some main_area =>
      String.intercalate "\n"
        (((find_all ["p", "span"] main_area).map getTextStrip).filter
          (fun s => s ≠ ""))
  | none => ""

/-- The text the fallback strategy (lines 114-122) yields on a
document: the first 30 of the document's non-empty stripped `<p>`
texts, joined with newlines. -/
def fallback_text (doc : Node) : String :=
  String.intercalate "\n"
    ((((find_all ["p"] doc).map getTextStrip).filter (fun s => s ≠ "")).take 30)

/-- `GET /hot-news` (lines 149-170): FastAPI validation of
`limit` (`ge=1, le=50`; a violation is rejected with a 422 before the
handler body runs), the sort mapping, and the `fetch_news` call with
the fixed keyword. -/
def get_hot_news (env : Env) (limit : Int) (sort : String)
    (net : UpstreamRequest → NetResponse) : RunResult :=
  if limit < 1 ∨ 50 < limit then
    ⟨.error ⟨422, "validation error: limit"⟩, []⟩
  else
    let naver_sort :=
      if (["latest", "date", "time"] : List String).contains sort then "date"
      else "sim"
    fetch_news env "주식" limit naver_sort net

/-- `GET /news` (lines 174-192): FastAPI validation of `limit`
(`ge=1, le=100`; a violation is rejected with a 422 before the handler
body runs), the sort mapping, and the `fetch_news` call. -/
def search_news (env : Env) (keyword : String) (limit : Int) (sort : String)
    (net : UpstreamRequest → NetResponse) : RunResult :=
  if limit < 1 ∨ 100 < limit then
    ⟨.error ⟨422, "validation error: limit"⟩, []⟩
  else
    let naver_sort :=
      if (["latest", "date", "time"] : List String).contains sort then "date"
      else "sim"
    fetch_news env keyword limit naver_sort net

/-- `GET /article` (lines 196-205): passes the url straight to
`fetch_article_content`. -/
def get_article (env : Env) (url : String) (res : PageResponse) :
    Except HTTPError ArticleDetail :=
  fetch_article_content env url res

/-- A configuration with both credentials present. -/
def envSample : Env := ⟨some "client-id", some "client-secret"⟩

/-- An upstream oracle that always answers 200 with an empty items
array. -/
def netEmpty : UpstreamRequest → NetResponse := fun _ => ⟨200, "ok-body", some []⟩

/-- An upstream oracle that always answers 403. -/
def netFail : UpstreamRequest → NetResponse := fun _ => ⟨403, "forbidden-body", none⟩

/-- An upstream oracle answering 200 with two items, the second of
which is missing every projected field. -/
def netTwoItems : UpstreamRequest → NetResponse := fun _ =>
  ⟨200, "ok-body",
    some [⟨some "t1", some "d1", some "l1", some "pd1"⟩, ⟨none, none, none, none⟩]⟩

/-- A `#dic_area` container with five paragraph-like children: three
with non-empty stripped text, two stripping to empty. -/
def sampleContainer : Node :=
  .elem "div" (some "dic_area") [
    .elem "p" none [.text " a "],
    .elem "p" none [.text "   "],
    .elem "p" none [.text "b"],
    .elem "span" none [],
    .elem "p" none [.text "c"]
  ]

/-- A document with a title and the five-paragraph `#dic_area`
container. -/
def sampleDoc1 : Node :=
  .elem "[document]" none [
    .elem "html" none [
      .elem "head" none [.elem "title" none [.text " T "]],
      .elem "body" none [sampleContainer]
    ]
  ]

/-- A document with a title, no `#dic_area` container, and forty `<p>`
elements each holding the text `x`. -/
def sampleDoc40 : Node :=
  .elem "[document]" none
    (Node.elem "title" none [.text "Title"] ::
      List.replicate 40 (Node.elem "p" none [.text "x"]))

/-- A document with no `#dic_area` container and thirty-one `<p>`
elements: the first strips to empty, then twenty-nine hold `x`, and
the thirty-first holds `z`. -/
def sampleDoc31 : Node :=
  .elem "[document]" none
    (Node.elem "p" none [.text "   "] ::
      (List.replicate 29 (Node.elem "p" none [.text "x"]) ++
        [Node.elem "p" none [.text "z"]]))

/-- A document with no title element and no paragraph text at all. -/
def sampleDocBlank : Node :=
  .elem "[document]" none [.elem "div" none [.text "  "]]

/-- `String.intercalate.go acc s l` always has `acc` as a prefix. -/
theorem intercalate_go_prefix (s : String) (l : List String) :
    ∀ acc : String, ∃ r : String, String.intercalate.go acc s l = acc ++ r := by
  induction l with
  | nil =>
      intro acc
      exact ⟨"", (String.append_empty acc).symm⟩
  | cons a as ih =>
      intro acc
      obtain ⟨r, hr⟩ := ih (acc ++ s ++ a)
      refine ⟨s ++ a ++ r, ?_⟩
      rw [String.intercalate.go, hr]
      simp [String.append_assoc]

/-- Joining a list that starts with a non-empty string never gives the
empty string. -/
theorem intercalate_cons_ne_empty (t : String) (ts : List String) (h : t ≠ "") :
    String.intercalate "\n" (t :: ts) ≠ "" := by
  obtain ⟨r, hr⟩ := intercalate_go_prefix "\n" ts t
  have hlen : 0 < t.length := by
    rcases t with ⟨l⟩
    cases l with
    | nil => exact absurd rfl h
    | cons c cs => simp [String.length]
  intro hempty
  have heq : String.intercalate "\n" (t :: ts) = t ++ r := by
    rw [String.intercalate]
    exact hr
  rw [heq] at hempty
  have hzero : (t ++ r).length = 0 := by rw [hempty]; rfl
  rw [String.length_append] at hzero
  omega

/-- Joining a prefix of a list of non-empty strings never gives the
empty string, as long as the list is non-empty and the prefix length
is positive. -/
theorem intercalate_take_ne_empty (l : List String) (hne : l ≠ [])
    (hall : ∀ s ∈ l, s ≠ "") (n : Nat) (hn : 0 < n) :
    String.intercalate "\n" (l.take n) ≠ "" := by
  cases l with
  | nil => exact absurd rfl hne
  | cons t ts =>
      cases n with
      | zero => omega
      | succ m =>
          simp only [List.take]
          exact intercalate_cons_ne_empty t (ts.take m) (hall t (by simp))

/-- With both credentials present, `fetch_news` issues exactly one
upstream request, with the clamped display count. -/
theorem fetch_news_requests (env : Env) (kw : String) (limit : Int) (sort : String)
    (net : UpstreamRequest → NetResponse)
    (hcid : ¬ pyFalsy env.NAVER_CLIENT_ID) (hcsec : ¬ pyFalsy env.NAVER_CLIENT_SECRET) :
    (fetch_news env kw limit sort net).requests = [⟨kw, min limit 100, sort⟩] := by
  unfold fetch_news
  simp only [Bool.not_eq_true] at hcid hcsec
  simp only [hcid, hcsec, Bool.or_self, Bool.false_eq_true, if_false]
  split <;> rfl

/-- With a missing (or empty) credential, `fetch_news` fails at once
with the configuration error and issues no request. -/
theorem fetch_news_missing (env : Env) (kw : String) (limit : Int) (sort : String)
    (net : UpstreamRequest → NetResponse)
    (h : pyFalsy env.NAVER_CLIENT_ID ∨ pyFalsy env.NAVER_CLIENT_SECRET) :
    fetch_news env kw limit sort net =
      ⟨.error ⟨500, "NAVER API key missing (.env 확인 필요)"⟩, []⟩ := by
  unfold fetch_news
  rcases h with h | h <;> simp [h]

/-- With both credentials present and a non-success upstream answer,
`fetch_news` propagates the upstream status and raw body. -/
theorem fetch_news_fail (env : Env) (kw : String) (limit : Int) (sort : String)
    (net : UpstreamRequest → NetResponse)
    (hcid : ¬ pyFalsy env.NAVER_CLIENT_ID) (hcsec : ¬ pyFalsy env.NAVER_CLIENT_SECRET)
    (hstatus : (net ⟨kw, min limit 100, sort⟩).status_code ≠ 200) :
    (fetch_news env kw limit sort net).result =
      .error ⟨(net ⟨kw, min limit 100, sort⟩).status_code,
        (net ⟨kw, min limit 100, sort⟩).text⟩ := by
  unfold fetch_news
  simp only [Bool.not_eq_true] at hcid hcsec
  simp only [hcid, hcsec, Bool.or_self, Bool.false_eq_true, if_false]
  rw [if_pos hstatus]

/-- With both credentials present and a success upstream answer whose
`items` key holds `items`, `fetch_news` succeeds with the projected
items in order. -/
theorem fetch_news_ok (env : Env) (kw : String) (limit : Int) (sort : String)
    (net : UpstreamRequest → NetResponse) (items : List UpstreamItem)
    (hcid : ¬ pyFalsy env.NAVER_CLIENT_ID) (hcsec : ¬ pyFalsy env.NAVER_CLIENT_SECRET)
    (hstatus : (net ⟨kw, min limit 100, sort⟩).status_code = 200)
    (hitems : (net ⟨kw, min limit 100, sort⟩).items = some items) :
    (fetch_news env kw limit sort net).result =
      .ok ⟨kw, items.length,
        items.map (fun item => Article.mk item.title item.description item.link item.pubDate)⟩ := by
  unfold fetch_news
  simp only [Bool.not_eq_true] at hcid hcsec
  simp only [hcid, hcsec, Bool.or_self, Bool.false_eq_true, if_false]
  rw [if_neg (by rw [hstatus]; exact fun h => h rfl)]
  simp [hitems]

/-- C3. The sort mapping of the news endpoints is total: `latest`,
`date` and `time` select the upstream recency mode `date`, and every
other string, `popular` included, selects the relevance mode `sim`;
no sort value is rejected — with valid limits and credentials both
endpoints always issue their upstream request. -/
theorem sort_mapping_total (env : Env) (keyword : String) (limit : Int) (sort : String)
    (net : UpstreamRequest → NetResponse)
    (hcid : ¬ pyFalsy env.NAVER_CLIENT_ID) (hcsec : ¬ pyFalsy env.NAVER_CLIENT_SECRET)
    (h1 : 1 ≤ limit) (h50 : limit ≤ 50) :
    ((get_hot_news env limit sort net).requests.map UpstreamRequest.sort
      = [if sort ∈ (["latest", "date", "time"] : List String) then "date" else "sim"])
    ∧ ((search_news env keyword limit sort net).requests.map UpstreamRequest.sort
      = [if sort ∈ (["latest", "date", "time"] : List String) then "date" else "sim"]) := by
  have hval50 : ¬ (limit < 1 ∨ 50 < limit) := by omega
  have hval100 : ¬ (limit < 1 ∨ 100 < limit) := by omega
  have hmap : ((["latest", "date", "time"] : List String).contains sort)
      = decide (sort ∈ (["latest", "date", "time"] : List String)) := by
    by_cases hs : sort ∈ (["latest", "date", "time"] : List String) <;> simp [hs]
  constructor
  · unfold get_hot_news
    rw [if_neg hval50, fetch_news_requests env _ limit _ net hcid hcsec]
    rw [hmap]
    by_cases hs : sort ∈ (["latest", "date", "time"] : List String) <;> simp [hs]
  · unfold search_news
    rw [if_neg hval100, fetch_news_requests env _ limit _ net hcid hcsec]
    rw [hmap]
    by_cases hs : sort ∈ (["latest", "date", "time"] : List String) <;> simp [hs]

/-- Witness for C3: `time` maps to `date` on `/hot-news`, an
unrecognized sort maps to `sim` on `/news`. -/
theorem sort_mapping_total_witness :
    ((get_hot_news envSample 5 "time" netEmpty).requests.map UpstreamRequest.sort = ["date"])
    ∧ ((search_news envSample "삼성전자" 5 "weird-sort" netEmpty).requests.map
        UpstreamRequest.sort = ["sim"]) := by
  constructor
  · have h := (sort_mapping_total envSample "x" 5 "time" netEmpty
      (by decide) (by decide) (by decide) (by decide)).1
    simpa using h
  · have h := (sort_mapping_total envSample "삼성전자" 5 "weird-sort" netEmpty
      (by decide) (by decide) (by decide) (by decide)).2
    simpa using h

/-- C4 counterexample: with both credentials present, requesting
limit 500 on `/news` does not yield an upstream request with display
100 — FastAPI's `le=100` validation rejects the request with a 422
before the handler body runs, so no upstream request is issued at
all. -/
theorem limit_clamp_counterexample :
    (search_news envSample "삼성전자" 500 "latest" netEmpty).requests = []
    ∧ (search_news envSample "삼성전자" 500 "latest" netEmpty).result =
        Except.error ⟨422, "validation error: limit"⟩ :=
  ⟨rfl, rfl⟩

/-- C4 (amended). `fetch_news` clamps the display parameter of the
upstream request to `min limit 100`; but a `/news` request whose limit
exceeds the declared maximum 100 is rejected by parameter validation
with a 422 before `fetch_news` runs, so it issues no upstream request
at all. -/
theorem limit_clamp_amended (env : Env) (keyword : String) (limit : Int) (sort : String)
    (net : UpstreamRequest → NetResponse)
    (hcid : ¬ pyFalsy env.NAVER_CLIENT_ID) (hcsec : ¬ pyFalsy env.NAVER_CLIENT_SECRET) :
    ((fetch_news env keyword limit sort net).requests.map UpstreamRequest.display
      = [min limit 100])
    ∧ (100 < limit → min limit 100 = 100)
    ∧ (100 < limit →
        (search_news env keyword limit sort net).requests = []
        ∧ (search_news env keyword limit sort net).result =
            Except.error ⟨422, "validation error: limit"⟩) := by
  refine ⟨?_, ?_, ?_⟩
  · rw [fetch_news_requests env keyword limit sort net hcid hcsec]
    rfl
  · intro h
    omega
  · intro h
    have hval : limit < 1 ∨ 100 < limit := Or.inr h
    unfold search_news
    rw [if_pos hval]
    exact ⟨rfl, rfl⟩

/-- Witness for C4's amended theorem at limit 500. -/
theorem limit_clamp_amended_witness :
    ((fetch_news envSample "삼성전자" 500 "date" netEmpty).requests.map
        UpstreamRequest.display = [min (500 : Int) 100])
    ∧ min (500 : Int) 100 = 100
    ∧ (search_news envSample "삼성전자" 500 "date" netEmpty).requests = []
    ∧ (search_news envSample "삼성전자" 500 "date" netEmpty).result =
        Except.error ⟨422, "validation error: limit"⟩ := by
  obtain ⟨h1, h2, h3⟩ :=
    limit_clamp_amended envSample "삼성전자" 500 "date" netEmpty (by decide) (by decide)
  exact ⟨h1, h2 (by decide), (h3 (by decide)).1, (h3 (by decide)).2⟩

/-- C6. When either credential is absent, every search-backed
operation — `fetch_news` itself, `/hot-news`, and `/news` — fails with
the configuration error and issues no upstream request in that run. -/
theorem missing_credentials_no_network (env : Env) (keyword : String) (limit : Int)
    (sort : String) (net : UpstreamRequest → NetResponse)
    (h : env.NAVER_CLIENT_ID = none ∨ env.NAVER_CLIENT_SECRET = none) :
    fetch_news env keyword limit sort net =
      ⟨.error ⟨500, "NAVER API key missing (.env 확인 필요)"⟩, []⟩
    ∧ (1 ≤ limit → limit ≤ 50 →
        get_hot_news env limit sort net =
          ⟨.error ⟨500, "NAVER API key missing (.env 확인 필요)"⟩, []⟩)
    ∧ (1 ≤ limit → limit ≤ 100 →
        search_news env keyword limit sort net =
          ⟨.error ⟨500, "NAVER API key missing (.env 확인 필요)"⟩, []⟩) := by
  have hf : ∀ (kw ns : String), fetch_news env kw limit ns net =
      ⟨.error ⟨500, "NAVER API key missing (.env 확인 필요)"⟩, []⟩ := by
    intro kw ns
    apply fetch_news_missing
    rcases h with h | h
    · exact Or.inl (by rw [h]; rfl)
    · exact Or.inr (by rw [h]; rfl)
  refine ⟨hf keyword sort, ?_, ?_⟩
  · intro hge hle
    unfold get_hot_news
    rw [if_neg (by omega)]
    exact hf _ _
  · intro hge hle
    unfold search_news
    rw [if_neg (by omega)]
    exact hf _ _

/-- Witness for C6 with the secret absent. -/
theorem missing_credentials_no_network_witness :
    fetch_news ⟨some "client-id", none⟩ "주식" 5 "date" netEmpty =
      ⟨.error ⟨500, "NAVER API key missing (.env 확인 필요)"⟩, []⟩
    ∧ get_hot_news ⟨some "client-id", none⟩ 5 "date" netEmpty =
        ⟨.error ⟨500, "NAVER API key missing (.env 확인 필요)"⟩, []⟩
    ∧ search_news ⟨some "client-id", none⟩ "주식" 5 "date" netEmpty =
        ⟨.error ⟨500, "NAVER API key missing (.env 확인 필요)"⟩, []⟩ := by
  obtain ⟨h1, h2, h3⟩ :=
    missing_credentials_no_network ⟨some "client-id", none⟩ "주식" 5 "date" netEmpty
      (Or.inr rfl)
  exact ⟨h1, h2 (by decide) (by decide), h3 (by decide) (by decide)⟩

/-- C7. On a success upstream response carrying `items`, the adapter
returns `count` equal to the number of items and the projections of
the items in upstream order; an item's missing field projects to an
absent field rather than an error. -/
theorem search_projection_order (env : Env) (keyword : String) (limit : Int)
    (sort : String) (net : UpstreamRequest → NetResponse) (items : List UpstreamItem)
    (hcid : ¬ pyFalsy env.NAVER_CLIENT_ID) (hcsec : ¬ pyFalsy env.NAVER_CLIENT_SECRET)
    (hstatus : (net ⟨keyword, min limit 100, sort⟩).status_code = 200)
    (hitems : (net ⟨keyword, min limit 100, sort⟩).items = some items) :
    (fetch_news env keyword limit sort net).result =
      .ok ⟨keyword, items.length,
        items.map (fun item =>
          Article.mk item.title item.description item.link item.pubDate)⟩ :=
  fetch_news_ok env keyword limit sort net items hcid hcsec hstatus hitems

/-- Witness for C7 on a two-item response whose second item is missing
every projected field. -/
theorem search_projection_order_witness :
    (fetch_news envSample "AI" 30 "sim" netTwoItems).result =
      .ok ⟨"AI",
        ([⟨some "t1", some "d1", some "l1", some "pd1"⟩,
          ⟨none, none, none, none⟩] : List UpstreamItem).length,
        ([⟨some "t1", some "d1", some "l1", some "pd1"⟩,
          ⟨none, none, none, none⟩] : List UpstreamItem).map (fun item =>
            Article.mk item.title item.description item.link item.pubDate)⟩ :=
  search_projection_order envSample "AI" 30 "sim" netTwoItems
    [⟨some "t1", some "d1", some "l1", some "pd1"⟩, ⟨none, none, none, none⟩]
    (by decide) (by decide) rfl rfl

/-- C8. A non-success outbound HTTP answer makes the operation fail
with an error whose status is the upstream status and whose detail
carries the raw upstream body: `fetch_news` propagates the body
verbatim, the article fetch propagates it behind a fixed prefix. -/
theorem upstream_error_propagation (env : Env) (keyword : String) (limit : Int)
    (sort : String) (net : UpstreamRequest → NetResponse) (url : String)
    (res : PageResponse)
    (hcid : ¬ pyFalsy env.NAVER_CLIENT_ID) (hcsec : ¬ pyFalsy env.NAVER_CLIENT_SECRET)
    (hstatus : (net ⟨keyword, min limit 100, sort⟩).status_code ≠ 200)
    (hpage : res.status_code ≠ 200) :
    (fetch_news env keyword limit sort net).result =
      .error ⟨(net ⟨keyword, min limit 100, sort⟩).status_code,
        (net ⟨keyword, min limit 100, sort⟩).text⟩
    ∧ fetch_article_content env url res =
        .error ⟨res.status_code, "기사 요청 실패: " ++ res.text⟩ := by
  constructor
  · exact fetch_news_fail env keyword limit sort net hcid hcsec hstatus
  · unfold fetch_article_content
    rw [if_pos hpage]

/-- Witness for C8 at a 403 upstream answer and a 404 page fetch. -/
theorem upstream_error_propagation_witness :
    (fetch_news envSample "주식" 5 "date" netFail).result =
      .error ⟨(netFail ⟨"주식", min (5 : Int) 100, "date"⟩).status_code,
        (netFail ⟨"주식", min (5 : Int) 100, "date"⟩).text⟩
    ∧ fetch_article_content envSample "u"
        ⟨404, "not-found-body", sampleDocBlank⟩ =
        .error ⟨404, "기사 요청 실패: " ++ "not-found-body"⟩ :=
  upstream_error_propagation envSample "주식" 5 "date" netFail "u"
    ⟨404, "not-found-body", sampleDocBlank⟩
    (by decide) (by decide) (by decide) (by decide)

/-- On a 200 page fetch, `fetch_article_content` is the composition of
title extraction, the primary strategy, the fallback exactly when the
primary yields no text, and the final both-empty check. -/
theorem fetch_article_content_eq (env : Env) (url : String) (res : PageResponse)
    (h : res.status_code = 200) :
    fetch_article_content env url res =
      if extract_title res.doc = "" ∧
          (if primary_text res.doc = "" then fallback_text res.doc
            else primary_text res.doc) = "" then
        .error ⟨500, "본문을 가져오지 못했습니다."⟩
      else
        .ok ⟨url, extract_title res.doc,
          if primary_text res.doc = "" then fallback_text res.doc
          else primary_text res.doc, url⟩ := by
  unfold fetch_article_content primary_text fallback_text
  rw [if_neg (by rw [h]; exact fun hc => hc rfl)]

/-- The condition of the final both-empty check, restated over the two
strategies separately. -/
theorem article_empty_cond_iff (doc : Node) :
    (extract_title doc = "" ∧
        (if primary_text doc = "" then fallback_text doc else primary_text doc) = "")
      ↔ (extract_title doc = "" ∧ primary_text doc = "" ∧ fallback_text doc = "") := by
  constructor
  · rintro ⟨ht, hc⟩
    by_cases hp : primary_text doc = ""
    · rw [if_pos hp] at hc
      exact ⟨ht, hp, hc⟩
    · rw [if_neg hp] at hc
      exact absurd hc hp
  · rintro ⟨ht, hp, hf⟩
    refine ⟨ht, ?_⟩
    rw [if_pos hp]
    exact hf

/-- C5. On a fetched page, the extractor fails with the extraction
error exactly when the title and the content of both strategies are
all empty; when any of them is non-empty it returns the
`ArticleDetail` built from them. -/
theorem extraction_error_iff (env : Env) (url : String) (res : PageResponse)
    (h200 : res.status_code = 200) :
    (fetch_article_content env url res =
        .error ⟨500, "본문을 가져오지 못했습니다."⟩
      ↔ (extract_title res.doc = "" ∧ primary_text res.doc = ""
          ∧ fallback_text res.doc = ""))
    ∧ (¬ (extract_title res.doc = "" ∧ primary_text res.doc = ""
          ∧ fallback_text res.doc = "") →
        fetch_article_content env url res =
          .ok ⟨url, extract_title res.doc,
            if primary_text res.doc = "" then fallback_text res.doc
            else primary_text res.doc, url⟩) := by
  rw [fetch_article_content_eq env url res h200]
  constructor
  · constructor
    · intro he
      by_cases hcond : (extract_title res.doc = "" ∧
          (if primary_text res.doc = "" then fallback_text res.doc
            else primary_text res.doc) = "")
      · exact (article_empty_cond_iff res.doc).mp hcond
      · rw [if_neg hcond] at he
        exact Except.noConfusion he
    · intro h3
      rw [if_pos ((article_empty_cond_iff res.doc).mpr h3)]
  · intro hne
    rw [if_neg (fun hc => hne ((article_empty_cond_iff res.doc).mp hc))]

/-- Witness for C5: the blank page fails with the extraction error,
and a page with a title and container text succeeds. -/
theorem extraction_error_iff_witness :
    (fetch_article_content envSample "u" ⟨200, "", sampleDocBlank⟩ =
        .error ⟨500, "본문을 가져오지 못했습니다."⟩
      ↔ (extract_title sampleDocBlank = "" ∧ primary_text sampleDocBlank = ""
          ∧ fallback_text sampleDocBlank = ""))
    ∧ fetch_article_content envSample "u" ⟨200, "", sampleDoc1⟩ =
        .ok ⟨"u", extract_title sampleDoc1,
          if primary_text sampleDoc1 = "" then fallback_text sampleDoc1
          else primary_text sampleDoc1, "u"⟩ :=
  ⟨(extraction_error_iff envSample "u" ⟨200, "", sampleDocBlank⟩ rfl).1,
    (extraction_error_iff envSample "u" ⟨200, "", sampleDoc1⟩ rfl).2 (by decide)⟩

/-- C1. When the fetched page's `#dic_area` container is present with
five paragraph-like descendants of which exactly the three texts `t1`,
`t2`, `t3` survive stripping, the extractor returns those three texts
joined by newlines, in document order. -/
theorem article_primary_extraction (env : Env) (url : String) (res : PageResponse)
    (c : Node) (t1 t2 t3 : String)
    (h200 : res.status_code = 200)
    (hc : select_one_id "dic_area" res.doc = some c)
    (hlen : (find_all ["p", "span"] c).length = 5)
    (hts : ((find_all ["p", "span"] c).map getTextStrip).filter (fun s => s ≠ "")
      = [t1, t2, t3]) :
    fetch_article_content env url res =
      .ok ⟨url, extract_title res.doc, String.intercalate "\n" [t1, t2, t3], url⟩ := by
  have ht1 : t1 ≠ "" := by
    have hmem : t1 ∈ ((find_all ["p", "span"] c).map getTextStrip).filter
        (fun s => s ≠ "") := by
      rw [hts]
      simp
    simpa using List.of_mem_filter hmem
  have hprim : primary_text res.doc = String.intercalate "\n" [t1, t2, t3] := by
    unfold primary_text
    rw [hc]
    simp only [hts]
  have hpne : primary_text res.doc ≠ "" := by
    rw [hprim]
    exact intercalate_cons_ne_empty t1 [t2, t3] ht1
  have hcond : ¬ (extract_title res.doc = "" ∧
      (if primary_text res.doc = "" then fallback_text res.doc
        else primary_text res.doc) = "") := by
    rintro ⟨ht, hcontent⟩
    rw [if_neg hpne] at hcontent
    exact hpne hcontent
  rw [fetch_article_content_eq env url res h200, if_neg hcond, if_neg hpne, hprim]

/-- Witness for C1 on the five-paragraph container page. -/
theorem article_primary_extraction_witness :
    fetch_article_content envSample "u" ⟨200, "", sampleDoc1⟩ =
      .ok ⟨"u", extract_title sampleDoc1, String.intercalate "\n" ["a", "b", "c"], "u"⟩ :=
  article_primary_extraction envSample "u" ⟨200, "", sampleDoc1⟩ sampleContainer
    "a" "b" "c" rfl rfl rfl (by decide)

/-- C2. On a fetched page with no `#dic_area` container (so the
primary strategy yields no text and the fallback runs) and forty `<p>`
elements, the extractor returns the first thirty of the non-empty
stripped paragraph texts joined by newlines, in document order; and on
every fetched page, returned content is the fallback text exactly when
the primary strategy's text is empty. -/
theorem article_fallback_extraction (env : Env) (url : String) (res : PageResponse)
    (h200 : res.status_code = 200)
    (hnoc : select_one_id "dic_area" res.doc = none)
    (hlen : (find_all ["p"] res.doc).length = 40)
    (hok : extract_title res.doc ≠ "" ∨
      ((find_all ["p"] res.doc).map getTextStrip).filter (fun s => s ≠ "") ≠ []) :
    (fetch_article_content env url res =
      .ok ⟨url, extract_title res.doc,
        String.intercalate "\n"
          ((((find_all ["p"] res.doc).map getTextStrip).filter
            (fun s => s ≠ "")).take 30), url⟩)
    ∧ primary_text res.doc = ""
    ∧ (∀ (res2 : PageResponse) (d : ArticleDetail), res2.status_code = 200 →
        fetch_article_content env url res2 = .ok d →
        d.content = if primary_text res2.doc = "" then fallback_text res2.doc
          else primary_text res2.doc) := by
  have hprim : primary_text res.doc = "" := by
    unfold primary_text
    rw [hnoc]
  have hcond : ¬ (extract_title res.doc = "" ∧
      (if primary_text res.doc = "" then fallback_text res.doc
        else primary_text res.doc) = "") := by
    rintro ⟨ht, hcontent⟩
    rw [if_pos hprim] at hcontent
    rcases hok with hok | hok
    · exact hok ht
    · have hne : String.intercalate "\n"
          ((((find_all ["p"] res.doc).map getTextStrip).filter
            (fun s => s ≠ "")).take 30) ≠ "" :=
        intercalate_take_ne_empty _ hok
          (fun s hs => by simpa using List.of_mem_filter hs) 30 (by omega)
      exact hne hcontent
  refine ⟨?_, hprim, ?_⟩
  · rw [fetch_article_content_eq env url res h200, if_neg hcond, if_pos hprim]
    rfl
  · intro res2 d h2 hok2
    rw [fetch_article_content_eq env url res2 h2] at hok2
    by_cases hcond2 : (extract_title res2.doc = "" ∧
        (if primary_text res2.doc = "" then fallback_text res2.doc
          else primary_text res2.doc) = "")
    · rw [if_pos hcond2] at hok2
      exact Except.noConfusion hok2
    · rw [if_neg hcond2] at hok2
      have hd := Except.ok.inj hok2
      rw [← hd]

/-- Witness for C2 on the forty-paragraph page; the characterization
conjunct is instantiated on the container page, where the content is
the primary text. -/
theorem article_fallback_extraction_witness :
    (fetch_article_content envSample "u" ⟨200, "", sampleDoc40⟩ =
      .ok ⟨"u", extract_title sampleDoc40,
        String.intercalate "\n"
          ((((find_all ["p"] sampleDoc40).map getTextStrip).filter
            (fun s => s ≠ "")).take 30), "u"⟩)
    ∧ primary_text sampleDoc40 = ""
    ∧ (⟨"u", "T", "a\nb\nc", "u"⟩ : ArticleDetail).content =
        (if primary_text sampleDoc1 = "" then fallback_text sampleDoc1
          else primary_text sampleDoc1) := by
  obtain ⟨h1, h2, h3⟩ :=
    article_fallback_extraction envSample "u" ⟨200, "", sampleDoc40⟩
      rfl rfl rfl (Or.inl (by decide))
  exact ⟨h1, h2, h3 ⟨200, "", sampleDoc1⟩ ⟨"u", "T", "a\nb\nc", "u"⟩ rfl rfl⟩

/-- C9. In the fallback path the empty-after-strip paragraph texts are
discarded before the thirty-element cap is applied: with no container,
the returned content is the first up-to-thirty non-empty stripped
paragraph texts of the whole document, in document order. -/
theorem fallback_filter_before_cap (env : Env) (url : String) (res : PageResponse)
    (h200 : res.status_code = 200)
    (hnoc : select_one_id "dic_area" res.doc = none)
    (hok : extract_title res.doc ≠ "" ∨
      ((find_all ["p"] res.doc).map getTextStrip).filter (fun s => s ≠ "") ≠ []) :
    fetch_article_content env url res =
      .ok ⟨url, extract_title res.doc,
        String.intercalate "\n"
          ((((find_all ["p"] res.doc).map getTextStrip).filter
            (fun s => s ≠ "")).take 30), url⟩ := by
  have hprim : primary_text res.doc = "" := by
    unfold primary_text
    rw [hnoc]
  have hcond : ¬ (extract_title res.doc = "" ∧
      (if primary_text res.doc = "" then fallback_text res.doc
        else primary_text res.doc) = "") := by
    rintro ⟨ht, hcontent⟩
    rw [if_pos hprim] at hcontent
    rcases hok with hok | hok
    · exact hok ht
    · have hne : String.intercalate "\n"
          ((((find_all ["p"] res.doc).map getTextStrip).filter
            (fun s => s ≠ "")).take 30) ≠ "" :=
        intercalate_take_ne_empty _ hok
          (fun s hs => by simpa using List.of_mem_filter hs) 30 (by omega)
      exact hne hcontent
  rw [fetch_article_content_eq env url res h200, if_neg hcond, if_pos hprim]
  rfl

/-- Witness for C9 on the thirty-one-paragraph page whose first `<p>`
strips to empty: the returned thirty texts include `z`, the text of
the thirty-first paragraph element. -/
theorem fallback_filter_before_cap_witness :
    (fetch_article_content envSample "u" ⟨200, "", sampleDoc31⟩ =
      .ok ⟨"u", extract_title sampleDoc31,
        String.intercalate "\n"
          ((((find_all ["p"] sampleDoc31).map getTextStrip).filter
            (fun s => s ≠ "")).take 30), "u"⟩)
    ∧ ((((find_all ["p"] sampleDoc31).map getTextStrip).filter
        (fun s => s ≠ "")).take 30).contains "z" = true :=
  ⟨fallback_filter_before_cap envSample "u" ⟨200, "", sampleDoc31⟩
      rfl rfl (Or.inr (by decide)),
    by decide⟩

/-- C10. The article-detail operation never reads the credential
configuration: its outcome is the same function of the url and the
fetched page whatever the two credentials are. -/
theorem article_ignores_credentials :
    ∀ (env1 env2 : Env) (url : String) (res : PageResponse),
      fetch_article_content env1 url res = fetch_article_content env2 url res
      ∧ get_article env1 url res = get_article env2 url res :=
  fun _ _ _ _ => ⟨rfl, rfl⟩

end StockBackend
